import Mathlib

/-!
Verification development for the deep-research pipeline
(`main.py`: `generate_plan`, `stream_research`, and the retrying
`generate_plan` variant of the from-scratch test harness).

The pipeline is shallowly embedded: JSON values parsed by `json.loads`
become the inductive `Json`; Python subscript access `obj[key]` and
`for x in obj` iteration become `indexStr` and `iterJson`, returning
`Except PyErr` for `KeyError`/`TypeError`; the external collaborators
(the planning model, the Tavily search client, the synthesis model) are
oracles passed in as functions, so a run of the async generator
`stream_research` becomes a pure function from the request and the
collaborator behaviours to the list of emitted events plus a final
status.
-/

namespace DeepResearch

/-- JSON values as produced by `json.loads` (numbers restricted to
integers; the pipeline never computes with them). -/
inductive Json where
  | null : Json
  | bool (b : Bool) : Json
  | num (n : Int) : Json
  | str (s : String) : Json
  | arr (elems : List Json) : Json
  | obj (fields : List (String × Json)) : Json

/-- Python errors raised by subscripting / iterating a decoded JSON
value: `KeyError` for a missing dict key, `TypeError` for subscripting
or iterating a value of the wrong type. -/
inductive PyErr where
  | keyError (k : String) : PyErr
  | typeError : PyErr
  deriving DecidableEq, Repr

/-- Python string-subscript `v[k]`: succeeds only on a dict that has the
key (first binding wins; `json.loads` never produces duplicates);
`KeyError` on a dict without the key, `TypeError` on any non-dict. -/
def indexStr : Json → String → Except PyErr Json
  | .obj fields, k =>
    match fields.find? (fun kv => kv.1 = k) with
    | some kv => .ok kv.2
    | none => .error (.keyError k)
  | _, _ => .error .typeError

/-- Python iteration `for x in v` over a decoded JSON value: a list
yields its elements, a string yields its characters (as one-character
strings), a dict yields its keys in insertion order, and every other
value raises `TypeError`. -/
def iterJson : Json → Except PyErr (List Json)
  | .arr elems => .ok elems
  | .str s => .ok (s.data.map (fun c => Json.str (String.singleton c)))
  | .obj fields => .ok (fields.map (fun kv => Json.str kv.1))
  | _ => .error .typeError

/-- Outcome of one `thinking_model.generate_content` call followed by
`json.loads(response.text)`, as observed by `generate_plan`:
`apiError` is a raised `GoogleAPIError` (message text kept);
`output none` is raw text that fails to parse (or a `ValueError` from
`.text`); `output (some p)` is raw text that parses to `p`. -/
inductive ModelOutcome where
  | apiError (msg : String) : ModelOutcome
  | output (parsed : Option Json) : ModelOutcome

/-- The fallback plan `generate_plan` builds in its
`except (json.JSONDecodeError, ValueError)` handler: two default
subtasks, the first searching the topic itself, the second the topic
followed by " overview". -/
def fallbackPlan (query : String) : Json :=
  .obj [("plan", .str ("Default plan for " ++ query)),
        ("subtasks", .arr
          [.obj [("subtask", .str "Default subtask 1"),
                 ("search_query", .str query)],
           .obj [("subtask", .str "Default subtask 2"),
                 ("search_query", .str (query ++ " overview"))]])]

/-- The planning prompt `generate_plan` sends to the thinking model
(braces of the embedded JSON example written as escapes). -/
def planning_prompt (query : String) : String :=
  "\n    Return a structured research plan for the topic: \"" ++ query ++
  "\" as valid JSON only, with no additional text, markdown, or code fences. Example:\n    \x7b\n      \"plan\": \"Overall research plan description\",\n      \"subtasks\": [\n        \x7b\n          \"subtask\": \"Description of subtask 1\",\n          \"search_query\": \"Specific search query for subtask 1\"\n        \x7d,\n        \x7b\n          \"subtask\": \"Description of subtask 2\",\n          \"search_query\": \"Specific search query for subtask 2\"\n        \x7d\n      ]\n    \x7d\n    Ensure at least two subtasks, each with a non-empty search_query relevant to the topic.\n    "

/-- The function `generate_plan` of the main service: call the thinking model, parse
its text as JSON and return the parsed value unchanged; re-raise a
`GoogleAPIError`; on a parse failure (or `ValueError`) return the
two-subtask fallback plan. The model call is the oracle
`thinkingModel`, applied to the planning prompt. -/
def generate_plan (query : String) (thinkingModel : String → ModelOutcome) :
    Except String Json :=
  match thinkingModel (planning_prompt query) with
  | .apiError msg => .error msg
  | .output none => .ok (fallbackPlan query)
  | .output (some plan) => .ok plan

/-- One web-search result as the pipeline consumes it: `result['title']`,
`result['content']`, and `result.get('url', ...)` — title, content, and
an optional URL. -/
structure SearchResult where
  title : String
  content : String
  url : Option String
  deriving DecidableEq, Repr

/-- The Tavily collaborator: `tavily.search(query=search_query,
max_results=n)` followed by the `results["results"]` projection, as one
oracle from the (JSON) query value and the result bound to either the
result list or the text of the raised exception. -/
def SearchOracle : Type :=
  Json → Nat → Except String (List SearchResult)

/-- One entry of the `search_results` accumulator: the dict
`{"search_query": ..., "subtask": ..., "results": ...}` appended for
each sub-task (with `results` empty on a failed search). -/
structure SubTaskOutcome where
  search_query : Json
  subtask : Json
  results : List SearchResult

/-- Events emitted on the SSE stream, one per `yield` of
`stream_research`: the planning frame, the per-sub-task search frames,
the report chunks, and the two terminal failure chunks of report
synthesis. -/
inductive Event where
  | planning (plan : Json) : Event
  | searchCompleted (query : Json) (results : List SearchResult) : Event
  | searchFailed (query : Json) (err : String) : Event
  | reportChunk (text : String) : Event
  | quotaExceeded (err : String) : Event
  | reportError (err : String) : Event

/-- One iteration of the search loop over `subtask`: read
`subtask["search_query"]` (outside the `try`), call Tavily with
`max_results=5`; on success read `subtask["subtask"]` while building the
appended dict, then yield the results frame; on a search failure the
`except` handler reads `subtask["subtask"]` while building the
empty-results dict, then yields the error frame. A failing subscript is
an unhandled `PyErr` (a `KeyError` raised while building the success
dict is caught by `except Exception` but re-raised by the same subscript
in the handler, so it still escapes), and then neither a frame is
yielded nor an outcome appended. -/
def processSubtask (tavilySearch : SearchOracle) (subtask : Json) :
    Except PyErr (Event × SubTaskOutcome) := do
  let search_query ← indexStr subtask "search_query"
  match tavilySearch search_query 5 with
  | .ok results => do
    let desc ← indexStr subtask "subtask"
    pure (.searchCompleted search_query results,
          ⟨search_query, desc, results⟩)
  | .error e => do
    let desc ← indexStr subtask "subtask"
    pure (.searchFailed search_query e, ⟨search_query, desc, []⟩)

/-- The Searching stage: `for subtask in plan["subtasks"]`, processing
sub-tasks strictly in order. Returns the frames yielded so far, the
`search_results` accumulator, and `some e` when an unhandled `PyErr`
aborted the loop (frames yielded before the abort are kept). -/
def searchLoop (tavilySearch : SearchOracle) :
    List Json → List Event × List SubTaskOutcome × Option PyErr
  | [] => ([], [], none)
  | subtask :: rest =>
    match processSubtask tavilySearch subtask with
    | .error e => ([], [], some e)
    | .ok (ev, oc) =>
      let (evs, ocs, err) := searchLoop tavilySearch rest
      (ev :: evs, oc :: ocs, err)

mutual

/-- Python `repr` of a JSON-decoded value (used by `str` on containers):
`None`/`True`/`False`, numbers as written, strings in single quotes,
lists as `[a, b]`, dicts as key–value pairs in braces. -/
def pyRepr : Json → String
  | .null => "None"
  | .bool true => "True"
  | .bool false => "False"
  | .num n => toString n
  | .str s => "\x27" ++ s ++ "\x27"
  | .arr elems => "[" ++ pyReprList elems ++ "]"
  | .obj fields => "\x7b" ++ pyReprFields fields ++ "\x7d"

/-- Comma-separated `repr`s of list elements. -/
def pyReprList : List Json → String
  | [] => ""
  | [x] => pyRepr x
  | x :: y :: rest => pyRepr x ++ ", " ++ pyReprList (y :: rest)

/-- Comma-separated `repr`s of dict entries. -/
def pyReprFields : List (String × Json) → String
  | [] => ""
  | [(k, v)] => "\x27" ++ k ++ "\x27: " ++ pyRepr v
  | (k, v) :: kv :: rest =>
    "\x27" ++ k ++ "\x27: " ++ pyRepr v ++ ", " ++ pyReprFields (kv :: rest)

end

/-- Python `str` of a JSON-decoded value, as interpolated by an
f-string: a string is taken verbatim, everything else as its `repr`. -/
def pyStr : Json → String
  | .str s => s
  | .null => pyRepr .null
  | .bool b => pyRepr (.bool b)
  | .num n => pyRepr (.num n)
  | .arr elems => pyRepr (.arr elems)
  | .obj fields => pyRepr (.obj fields)

/-- Python `sep.join(parts)`. -/
def pyJoin (sep : String) : List String → String
  | [] => ""
  | [x] => x
  | x :: y :: rest => x ++ sep ++ pyJoin sep (y :: rest)

/-- One search-result line of the synthesis prompt:
`f"- {title}: {content} [URL: {result.get('url', 'Not Available')}]"`. -/
def formatResultLine (result : SearchResult) : String :=
  "- " ++ result.title ++ ": " ++ result.content ++ " [URL: " ++
    result.url.getD "Not Available" ++ "]"

/-- The `search_summary` string of the synthesis step: for each
`search_results` entry, a `Subtask:`/`Search Query:`/`Results:` header
followed by one formatted line per result, or `No results found.` when
the entry's result list is empty (Python truthiness of the list); the
per-entry blocks joined with newlines. -/
def search_summary (search_results : List SubTaskOutcome) : String :=
  pyJoin "\n" (search_results.map (fun item =>
    "Subtask: " ++ pyStr item.subtask ++ "\nSearch Query: " ++
      pyStr item.search_query ++ "\nResults:\n" ++
    (if item.results.isEmpty then "No results found."
     else pyJoin "\n" (item.results.map formatResultLine))))

/-- JSON string escaping for `json.dumps` (common escapes). -/
def jsonEscapeChar (c : Char) : String :=
  if c = '\\' then "\\\\"
  else if c = '\"' then "\\\""
  else if c = '\n' then "\\n"
  else if c = '\t' then "\\t"
  else if c = '\r' then "\\r"
  else String.singleton c

/-- Escape a whole string for `json.dumps`. -/
def jsonEscape (s : String) : String :=
  String.join (s.data.map jsonEscapeChar)

/-- Indentation of `n` spaces. -/
def spaces (n : Nat) : String :=
  String.join (List.replicate n " ")

mutual

/-- Rendering of `json.dumps(v, indent=2)` at nesting depth `d`: scalars inline,
empty containers inline, non-empty containers one element per line,
each line indented two further spaces, closing bracket at the
container's own depth. -/
def jsonDumps2 (d : Nat) : Json → String
  | .null => "null"
  | .bool true => "true"
  | .bool false => "false"
  | .num n => toString n
  | .str s => "\"" ++ jsonEscape s ++ "\""
  | .arr [] => "[]"
  | .arr (x :: xs) =>
    "[\n" ++ jsonDumpsItems d (x :: xs) ++ "\n" ++ spaces (2 * d) ++ "]"
  | .obj [] => "\x7b\x7d"
  | .obj (kv :: kvs) =>
    "\x7b\n" ++ jsonDumpsFields d (kv :: kvs) ++ "\n" ++ spaces (2 * d) ++ "\x7d"

/-- The element lines of a dumped non-empty list. -/
def jsonDumpsItems (d : Nat) : List Json → String
  | [] => ""
  | [x] => spaces (2 * (d + 1)) ++ jsonDumps2 (d + 1) x
  | x :: y :: rest =>
    spaces (2 * (d + 1)) ++ jsonDumps2 (d + 1) x ++ ",\n" ++
      jsonDumpsItems d (y :: rest)

/-- The entry lines of a dumped non-empty dict. -/
def jsonDumpsFields (d : Nat) : List (String × Json) → String
  | [] => ""
  | [(k, v)] =>
    spaces (2 * (d + 1)) ++ "\"" ++ jsonEscape k ++ "\": " ++
      jsonDumps2 (d + 1) v
  | (k, v) :: kv :: rest =>
    spaces (2 * (d + 1)) ++ "\"" ++ jsonEscape k ++ "\": " ++
      jsonDumps2 (d + 1) v ++ ",\n" ++ jsonDumpsFields d (kv :: rest)

end

/-- Rendering of `json.dumps(v, indent=2)`. -/
def json_dumps_indent2 (v : Json) : String :=
  jsonDumps2 0 v

/-- The synthesis prompt `report_prompt`, an f-string interpolating the
topic, `json.dumps(plan, indent=2)` and `search_summary` into the fixed
report-structure instructions. -/
def report_prompt (query : String) (plan : Json) (summary : String) : String :=
  "\n    Generate a detailed research report on " ++ query ++
  " in markdown format using the following data:\n    ## Research Plan\n    " ++
  json_dumps_indent2 plan ++
  "\n    ## Search Results\n    " ++ summary ++
  "\n\n    Structure the report as follows:\n    - **Abstract**: A concise summary (100-150 words) of the research topic, objectives, and key findings.\n    - **Introduction**: Introduce the topic, its significance, and the research objectives based on the plan (150-200 words).\n    - **Research Findings**: For each subtask, create a dedicated section with:\n      - A clear heading matching the subtask description.\n      - An objective statement explaining the purpose of this research segment.\n      - Detailed findings (200-300 words per section) synthesizing the search results, highlighting key insights, and addressing the objective.\n      - Inline citations in the format [Source: Title, URL: <url>] or [Source: Title, URL: Not Available].\n    - **Discussion**: Analyze the findings across subtasks, comparing and contrasting results, identifying trends, and noting limitations (200-250 words).\n    - **Conclusion**: Summarize key insights, implications, and potential future research directions (150-200 words).\n    - **References**: A numbered list of all cited sources in the format:\n      1. Title, URL: <url>\n      2. Title, URL: Not Available\n      Do not omit or replace URLs.\n\n    Ensure the report is comprehensive, concise, and complete, with each section serving its research objective. Use clear, formal language suitable for an academic or professional audience.\n    "

/-- How the synthesis model's chunk stream ends, as seen by the `try`
around `stream_report`: normal completion, a `ResourceExhausted`
(caught first), another `GoogleAPIError` (caught second), or any
exception outside `GoogleAPIError` (for example the `ValueError` that
`chunk.text` raises on blocked content), which no handler catches. -/
inductive ReportEnd where
  | completed : ReportEnd
  | resourceExhausted (msg : String) : ReportEnd
  | apiError (msg : String) : ReportEnd
  | otherException : ReportEnd

/-- Behaviour of one `task_model.generate_content(prompt, stream=True)`
call: the chunk texts produced before the stream ends, and how it
ends. -/
structure ReportStream where
  chunks : List String
  ending : ReportEnd

/-- An error that escapes the body of the `stream_research` generator:
an unhandled Python subscript/iteration error, or an uncaught exception
out of report synthesis. -/
inductive StreamErr where
  | py (e : PyErr) : StreamErr
  | reportException : StreamErr
  deriving DecidableEq

/-- The report-synthesis step: relay every chunk as a `reportChunk`
frame; on `ResourceExhausted` yield one `quotaExceeded` frame and
finish normally; on another `GoogleAPIError` yield one `reportError`
frame and finish normally; on any other exception the already relayed
chunks stand but the exception escapes. -/
def reportStage (rs : ReportStream) : List Event × Option StreamErr :=
  match rs.ending with
  | .completed => (rs.chunks.map .reportChunk, none)
  | .resourceExhausted msg => (rs.chunks.map .reportChunk ++ [.quotaExceeded msg], none)
  | .apiError msg => (rs.chunks.map .reportChunk ++ [.reportError msg], none)
  | .otherException => (rs.chunks.map .reportChunk, some .reportException)

/-- Final status of one run of the `stream_research` generator. -/
inductive RunStatus where
  | done : RunStatus
  | crashed (e : StreamErr) : RunStatus
  | planningFailed (msg : String) : RunStatus
  deriving DecidableEq

/-- One complete run: the frames yielded, in order, and how the
generator finished. -/
structure RunResult where
  events : List Event
  status : RunStatus

/-- The `stream_research` async generator as a function of the request
fields and the three collaborators (`thinking_model`, `tavily`,
`task_model` — module-level clients, passed here as oracles). The
`provider`, `thinking_model_name`, `task_model_name` and
`search_provider` parameters are accepted but never read, exactly as in
the source. Stage order: `generate_plan` (an API error here escapes
before any frame); the `Planning` frame; `plan["subtasks"]` iterated by
`searchLoop`; then `report_prompt` is built from `search_summary` and
the synthesis stream is relayed by `reportStage`. -/
def stream_research (query : String) (provider : String)
    (thinking_model_name : String) (task_model_name : String)
    (search_provider : String)
    (thinkingModel : String → ModelOutcome) (tavilySearch : SearchOracle)
    (taskModel : String → ReportStream) : RunResult :=
  match generate_plan query thinkingModel with
  | .error msg => ⟨[], .planningFailed msg⟩
  | .ok plan =>
    match (indexStr plan "subtasks").bind iterJson with
    | .error e => ⟨[.planning plan], .crashed (.py e)⟩
    | .ok subtasks =>
      match searchLoop tavilySearch subtasks with
      | (searchEvents, _, some e) =>
        ⟨.planning plan :: searchEvents, .crashed (.py e)⟩
      | (searchEvents, search_results, none) =>
        let rs := taskModel (report_prompt query plan (search_summary search_results))
        let (reportEvents, rerr) := reportStage rs
        ⟨.planning plan :: (searchEvents ++ reportEvents),
         match rerr with
         | some err => .crashed err
         | none => .done⟩

/-- Outcome of one attempt of the retry-decorated `generate_plan` of
the from-scratch harness (`thinking_model.generate_content` followed by
`json.loads`): a `ResourceExhausted` error, any other raised exception
(another `GoogleAPIError`, or a parse error — both non-retryable), or a
successfully parsed plan. -/
inductive CallOutcome where
  | resourceExhausted : CallOutcome
  | raised (msg : String) : CallOutcome
  | ok (plan : Json) : CallOutcome

/-- How a `tenacity`-wrapped call can fail: `retryError` when the stop
condition exhausts the attempts (tenacity wraps the last
`ResourceExhausted` in a `RetryError`), or the original exception
re-raised at once when the retry predicate rejects it. -/
inductive RetryFailure where
  | retryError : RetryFailure
  | raised (msg : String) : RetryFailure
  deriving DecidableEq

/-- The `tenacity` loop for
`@retry(stop=stop_after_attempt(...), wait=wait_fixed(wait),
retry=retry_if_exception_type(ResourceExhausted))`: attempt `k` calls
the wrapped function; a success returns at once; a non-retryable
exception re-raises at once; a `ResourceExhausted` sleeps `wait` and
retries while further attempts remain (`remaining` counts the attempts
the stop condition still allows after the current one), else raises
`RetryError`. Returns the result, the number of attempts made, and the
total induced delay. -/
def tenacityLoop (call : Nat → CallOutcome) (wait : Nat) :
    Nat → Nat → Nat → (Except RetryFailure Json) × Nat × Nat
  | remaining, k, delayAcc =>
    match call k with
    | .ok plan => (.ok plan, k, delayAcc)
    | .raised msg => (.error (.raised msg), k, delayAcc)
    | .resourceExhausted =>
      match remaining with
      | r + 1 => tenacityLoop call wait r (k + 1) (delayAcc + wait)
      | 0 => (.error .retryError, k, delayAcc)

/-- The function `generate_plan` of the from-scratch harness, retry-decorated with
`stop_after_attempt(3)` and `wait_fixed(20)`, applied to a sequence of
attempt outcomes (attempts numbered from 1; two attempts remain beyond
the first). -/
def generate_plan_with_retry (call : Nat → CallOutcome) :
    (Except RetryFailure Json) × Nat × Nat :=
  tenacityLoop call 20 2 1 0

/-! ### Claim-side helper definitions -/

/-- A sub-task dict is well-formed when both subscripts the pipeline
performs on it (`subtask["search_query"]`, `subtask["subtask"]`)
succeed. -/
def wfSubtask (subtask : Json) : Bool :=
  match indexStr subtask "search_query", indexStr subtask "subtask" with
  | .ok _, .ok _ => true
  | _, _ => false

/-- The value of `subtask["search_query"]` (defaulting to `null` when
the subscript fails — only used under `wfSubtask`). -/
def searchQueryOf (subtask : Json) : Json :=
  match indexStr subtask "search_query" with
  | .ok v => v
  | .error _ => .null

/-- The value of `subtask["subtask"]` (defaulting to `null` when the
subscript fails — only used under `wfSubtask`). -/
def subtaskDescOf (subtask : Json) : Json :=
  match indexStr subtask "subtask" with
  | .ok v => v
  | .error _ => .null

/-- The single frame the Searching stage emits for one well-formed
sub-task: a results frame when the search succeeds, an error frame when
it fails. -/
def subtaskEvent (tavilySearch : SearchOracle) (subtask : Json) : Event :=
  match tavilySearch (searchQueryOf subtask) 5 with
  | .ok results => .searchCompleted (searchQueryOf subtask) results
  | .error e => .searchFailed (searchQueryOf subtask) e

/-- The outcome the Searching stage appends for one well-formed
sub-task: the returned results on success, the empty list on failure. -/
def subtaskOutcomeOf (tavilySearch : SearchOracle) (subtask : Json) :
    SubTaskOutcome :=
  match tavilySearch (searchQueryOf subtask) 5 with
  | .ok results => ⟨searchQueryOf subtask, subtaskDescOf subtask, results⟩
  | .error _ => ⟨searchQueryOf subtask, subtaskDescOf subtask, []⟩

/-- The subtasks list of a plan (empty when the plan does not hold a
`subtasks` array). -/
def subtasksOf (plan : Json) : List Json :=
  match indexStr plan "subtasks" with
  | .ok (.arr subtasks) => subtasks
  | _ => []

/-- The spec's plan-validity invariant, stated from its words: the plan
holds at least one sub-task and every sub-task has a non-empty (string)
`search_query`. -/
def specValidPlan (plan : Json) : Bool :=
  match indexStr plan "subtasks" with
  | .ok (.arr subtasks) =>
    !subtasks.isEmpty && subtasks.all (fun st =>
      match indexStr st "search_query" with
      | .ok (.str q) => !q.isEmpty
      | _ => false)
  | _ => false

/-- The spec's ResearchPlan shape, as the unguarded subscripts need it:
a dict whose `subtasks` entry is a list of dicts each carrying
`search_query` and `subtask`. -/
def planShape (plan : Json) : Bool :=
  match indexStr plan "subtasks" with
  | .ok (.arr subtasks) => subtasks.all wfSubtask
  | _ => false

/-- Stage index of a frame: Planning 0, Searching 1, Synthesizing 2. -/
def stageOf : Event → Nat
  | .planning _ => 0
  | .searchCompleted _ _ => 1
  | .searchFailed _ _ => 1
  | .reportChunk _ => 2
  | .quotaExceeded _ => 2
  | .reportError _ => 2

/-- Terminal failure chunks of report synthesis. -/
def isFailureChunk : Event → Bool
  | .quotaExceeded _ => true
  | .reportError _ => true
  | _ => false

/-! ### Searching-stage lemmas -/

/-- On a well-formed sub-task the loop body cannot raise: it emits the
frame and appends the outcome described by `subtaskEvent` /
`subtaskOutcomeOf`. -/
theorem processSubtask_eq_of_wf (tavilySearch : SearchOracle) (subtask : Json)
    (h : wfSubtask subtask = true) :
    processSubtask tavilySearch subtask =
      .ok (subtaskEvent tavilySearch subtask, subtaskOutcomeOf tavilySearch subtask) := by
  unfold wfSubtask at h
  cases h1 : indexStr subtask "search_query" with
  | error e => rw [h1] at h; simp at h
  | ok sq =>
    cases h2 : indexStr subtask "subtask" with
    | error e => rw [h1, h2] at h; simp at h
    | ok d =>
      unfold processSubtask subtaskEvent subtaskOutcomeOf searchQueryOf subtaskDescOf
      rw [h1, h2]
      cases h3 : tavilySearch sq 5 <;>
        simp [Bind.bind, Except.bind, h3, pure, Except.pure]

/-- On a list of well-formed sub-tasks the search loop never aborts:
it emits exactly one frame and appends exactly one outcome per
sub-task, in input order. -/
theorem searchLoop_eq_of_wf (tavilySearch : SearchOracle) (sts : List Json)
    (h : ∀ st ∈ sts, wfSubtask st = true) :
    searchLoop tavilySearch sts =
      (sts.map (subtaskEvent tavilySearch),
       sts.map (subtaskOutcomeOf tavilySearch), none) := by
  induction sts with
  | nil => rfl
  | cons st rest ih =>
    have hst := processSubtask_eq_of_wf tavilySearch st (h st (by simp))
    have hrest := ih (fun x hx => h x (by simp [hx]))
    simp [searchLoop, hst, hrest]

/-- If every sub-task before `x` is well-formed and the loop body
raises on `x`, the loop stops there: the frames and outcomes of the
prefix stand, nothing is recorded for `x`, and the error escapes. -/
theorem searchLoop_abort_on_error (tavilySearch : SearchOracle)
    (pre : List Json) (x : Json) (rest : List Json) (e : PyErr)
    (hpre : ∀ st ∈ pre, wfSubtask st = true)
    (hx : processSubtask tavilySearch x = .error e) :
    searchLoop tavilySearch (pre ++ x :: rest) =
      (pre.map (subtaskEvent tavilySearch),
       pre.map (subtaskOutcomeOf tavilySearch), some e) := by
  induction pre with
  | nil => simp [searchLoop, hx]
  | cons st tail ih =>
    have hst := processSubtask_eq_of_wf tavilySearch st (hpre st (by simp))
    have htail := ih (fun y hy => hpre y (by simp [hy]))
    simp [searchLoop, hst, htail]

/-- The frame the loop body yields for a sub-task is always a
Searching-stage frame. -/
theorem processSubtask_stage (tavilySearch : SearchOracle) (st : Json)
    (ev : Event) (oc : SubTaskOutcome)
    (hp : processSubtask tavilySearch st = .ok (ev, oc)) : stageOf ev = 1 := by
  unfold processSubtask at hp
  cases h1 : indexStr st "search_query" with
  | error e => rw [h1] at hp; simp [Bind.bind, Except.bind] at hp
  | ok sq =>
    rw [h1] at hp
    simp only [Bind.bind, Except.bind] at hp
    cases h3 : tavilySearch sq 5 with
    | ok results =>
      rw [h3] at hp
      cases h2 : indexStr st "subtask" with
      | error e => rw [h2] at hp; simp at hp
      | ok d =>
        rw [h2] at hp
        simp only [pure, Except.pure, Except.ok.injEq, Prod.mk.injEq] at hp
        rw [← hp.1]; rfl
    | error err =>
      rw [h3] at hp
      cases h2 : indexStr st "subtask" with
      | error e => rw [h2] at hp; simp at hp
      | ok d =>
        rw [h2] at hp
        simp only [pure, Except.pure, Except.ok.injEq, Prod.mk.injEq] at hp
        rw [← hp.1]; rfl

/-- Every frame the search loop emits is a Searching-stage frame. -/
theorem searchLoop_events_stage (tavilySearch : SearchOracle) (sts : List Json) :
    ∀ ev ∈ (searchLoop tavilySearch sts).1, stageOf ev = 1 := by
  induction sts with
  | nil => intro ev hev; simp [searchLoop] at hev
  | cons st rest ih =>
    intro ev hev
    unfold searchLoop at hev
    cases hp : processSubtask tavilySearch st with
    | error e => rw [hp] at hev; simp at hev
    | ok pair =>
      rw [hp] at hev
      simp at hev
      rcases hev with h | h
      · rcases pair with ⟨ev', oc⟩
        rw [h]
        exact processSubtask_stage tavilySearch st ev' oc hp
      · exact ih ev h

/-- Every frame the report stage emits is a Synthesizing-stage frame. -/
theorem reportStage_events_stage (rs : ReportStream) :
    ∀ ev ∈ (reportStage rs).1, stageOf ev = 2 := by
  rcases rs with ⟨chunks, ending⟩
  intro ev hev
  unfold reportStage at hev
  cases ending with
  | completed => simp at hev; rcases hev with ⟨c, -, rfl⟩; rfl
  | resourceExhausted msg =>
    simp at hev; rcases hev with ⟨c, -, rfl⟩ | rfl <;> rfl
  | apiError msg =>
    simp at hev; rcases hev with ⟨c, -, rfl⟩ | rfl <;> rfl
  | otherException => simp at hev; rcases hev with ⟨c, -, rfl⟩; rfl

/-- A list of frames all of one stage is stage-sorted. -/
theorem pairwise_stage_of_const (l : List Event) (c : Nat)
    (h : ∀ x ∈ l, stageOf x = c) :
    List.Pairwise (fun a b => stageOf a ≤ stageOf b) l := by
  induction l with
  | nil => exact List.Pairwise.nil
  | cons x xs ih =>
    constructor
    · intro y hy
      rw [h x (by simp), h y (by simp [hy])]
    · exact ih (fun y hy => h y (by simp [hy]))

/-! ### Concrete fixtures for witnesses and counterexamples -/

/-- A well-formed sub-task whose search will succeed. -/
def subtaskA : Json :=
  .obj [("subtask", .str "History of solar"), ("search_query", .str "solar history")]

/-- A well-formed sub-task whose search will fail. -/
def subtaskB : Json :=
  .obj [("subtask", .str "Cost trends"), ("search_query", .str "solar cost trends")]

/-- A demo search result carrying no URL. -/
def demoResult : SearchResult :=
  ⟨"Solar", "Solar power is growing", none⟩

/-- A demo Tavily behaviour: one query succeeds, every other raises. -/
def tavilyDemo : SearchOracle := fun q _ =>
  match q with
  | .str "solar history" => .ok [demoResult]
  | _ => .error "HTTPError"

/-- A demo synthesis behaviour: two chunks, normal completion. -/
def reportDemo : String → ReportStream := fun _ =>
  ⟨["# Report\n", "Done."], .completed⟩

/-- A planning model that always raises a `GoogleAPIError`. -/
def modelQuota : String → ModelOutcome := fun _ =>
  .apiError "429 Resource has been exhausted"

/-- A planning model whose raw output never parses as JSON. -/
def modelParseFail : String → ModelOutcome := fun _ => .output none

/-! ### C1 -/

/-- Claim C1: for a plan whose `subtasks` sequence has length `N` (all
entries well-formed dicts), the Searching stage emits exactly `N`
frames — one `searchCompleted` or `searchFailed` per sub-task, in plan
order — never aborts on an individual search failure, and records every
failed sub-task as an outcome with an empty result list. -/
theorem searching_stage_one_event_per_subtask (tavilySearch : SearchOracle)
    (sts : List Json) (h : ∀ st ∈ sts, wfSubtask st = true) :
    searchLoop tavilySearch sts =
      (sts.map (subtaskEvent tavilySearch),
       sts.map (subtaskOutcomeOf tavilySearch), none) ∧
    (searchLoop tavilySearch sts).1.length = sts.length ∧
    (searchLoop tavilySearch sts).2.1.length = sts.length ∧
    (∀ st ∈ sts, ∀ e, tavilySearch (searchQueryOf st) 5 = .error e →
      subtaskEvent tavilySearch st = .searchFailed (searchQueryOf st) e ∧
      (subtaskOutcomeOf tavilySearch st).results = []) := by
  have heq := searchLoop_eq_of_wf tavilySearch sts h
  refine ⟨heq, ?_, ?_, ?_⟩
  · rw [heq]; simp
  · rw [heq]; simp
  · intro st _ e he
    unfold subtaskEvent subtaskOutcomeOf
    rw [he]
    exact ⟨rfl, rfl⟩

/-- Witness for C1 at a two-sub-task plan where the first search
succeeds and the second raises. -/
theorem searching_stage_one_event_per_subtask_witness :
    searchLoop tavilyDemo [subtaskA, subtaskB] =
      ([subtaskA, subtaskB].map (subtaskEvent tavilyDemo),
       [subtaskA, subtaskB].map (subtaskOutcomeOf tavilyDemo), none) :=
  (searching_stage_one_event_per_subtask tavilyDemo [subtaskA, subtaskB]
    (by decide)).1

/-! ### C4 -/

/-- Claim C4: plan generation retries a `ResourceExhausted` model call
with a fixed 20-unit delay for up to 3 attempts in total — success on
the 3rd attempt costs 40 units of induced delay; exhaustion of all 3
attempts surfaces a retry failure (also after 40 units); any other
failure is not retried and propagates from the 1st attempt with no
delay. -/
theorem plan_generation_retry_policy (callS callF callO : Nat → CallOutcome)
    (p : Json) (msg : String)
    (h1 : callS 1 = .resourceExhausted) (h2 : callS 2 = .resourceExhausted)
    (h3 : callS 3 = .ok p)
    (h4 : callF 1 = .resourceExhausted) (h5 : callF 2 = .resourceExhausted)
    (h6 : callF 3 = .resourceExhausted)
    (h7 : callO 1 = .raised msg) :
    generate_plan_with_retry callS = (.ok p, 3, 40) ∧
    generate_plan_with_retry callF = (.error .retryError, 3, 40) ∧
    generate_plan_with_retry callO = (.error (.raised msg), 1, 0) := by
  unfold generate_plan_with_retry
  refine ⟨?_, ?_, ?_⟩
  · simp [tenacityLoop, h1, h2, h3]
  · simp [tenacityLoop, h4, h5, h6]
  · simp [tenacityLoop, h7]

/-- Retry demo: success on the third attempt. -/
def callSucceedsThird : Nat → CallOutcome := fun n =>
  if n < 3 then .resourceExhausted else .ok .null

/-- Retry demo: resource exhaustion on every attempt. -/
def callAlwaysExhausted : Nat → CallOutcome := fun _ => .resourceExhausted

/-- Retry demo: a non-retryable API error on the first attempt. -/
def callOtherError : Nat → CallOutcome := fun _ => .raised "400 Bad Request"

/-- Witness for C4 at the three demo attempt sequences. -/
theorem plan_generation_retry_policy_witness :
    generate_plan_with_retry callSucceedsThird = (.ok .null, 3, 40) ∧
    generate_plan_with_retry callAlwaysExhausted = (.error .retryError, 3, 40) ∧
    generate_plan_with_retry callOtherError = (.error (.raised "400 Bad Request"), 1, 0) :=
  plan_generation_retry_policy callSucceedsThird callAlwaysExhausted callOtherError
    .null "400 Bad Request" rfl rfl rfl rfl rfl rfl rfl

/-! ### C5 -/

/-- Claim C5: when plan generation fails fatally (the model call raises
an API error), the run ends in the failed state having emitted no frame
at all — no Planning frame, no search frames, no report chunks. -/
theorem planning_failure_emits_nothing (query provider tmn tkn sp msg : String)
    (thinkingModel : String → ModelOutcome) (tavilySearch : SearchOracle)
    (taskModel : String → ReportStream)
    (h : thinkingModel (planning_prompt query) = .apiError msg) :
    stream_research query provider tmn tkn sp thinkingModel tavilySearch taskModel =
      ⟨[], .planningFailed msg⟩ := by
  unfold stream_research generate_plan
  rw [h]

/-- Witness for C5 at a model that raises on every planning attempt. -/
theorem planning_failure_emits_nothing_witness :
    stream_research "solar power" "google" "gemini-1.5-flash" "gemini-1.5-flash"
        "tavily" modelQuota tavilyDemo reportDemo =
      ⟨[], .planningFailed "429 Resource has been exhausted"⟩ :=
  planning_failure_emits_nothing "solar power" "google" "gemini-1.5-flash"
    "gemini-1.5-flash" "tavily" "429 Resource has been exhausted"
    modelQuota tavilyDemo reportDemo rfl

/-! ### C10 -/

/-- Claim C10: the per-request `provider`, `thinking_model`,
`task_model` and `search_provider` fields have no effect — two runs
differing only in them produce identical event streams and statuses
given identical collaborator behaviours. -/
theorem request_model_params_no_effect (query p1 t1 k1 s1 p2 t2 k2 s2 : String)
    (thinkingModel : String → ModelOutcome) (tavilySearch : SearchOracle)
    (taskModel : String → ReportStream) :
    stream_research query p1 t1 k1 s1 thinkingModel tavilySearch taskModel =
      stream_research query p2 t2 k2 s2 thinkingModel tavilySearch taskModel := rfl

/-! ### C2 -/

/-- A plan that parses but violates the validity invariant: its single
sub-task has an empty `search_query`. -/
def badPlanEmptyQuery : Json :=
  .obj [("plan", .str "p"),
        ("subtasks", .arr [.obj [("subtask", .str "s"), ("search_query", .str "")]])]

/-- Appending " overview" always yields a non-empty string. -/
theorem isEmpty_append_overview (q : String) : (q ++ " overview").isEmpty = false := by
  cases h : (q ++ " overview").isEmpty with
  | false => rfl
  | true =>
    have h2 := (String.isEmpty_iff _).mp h
    have h3 := congrArg String.data h2
    rw [String.data_append] at h3
    simp at h3

/-- Counterexample to C2: a successfully parsed plan whose sub-task has
an empty `search_query` is returned as-is by `generate_plan` — it is
neither replaced by the fallback plan nor valid. -/
theorem plan_semantic_validation_missing_cex :
    generate_plan "topic" (fun _ => .output (some badPlanEmptyQuery)) =
      .ok badPlanEmptyQuery ∧
    specValidPlan badPlanEmptyQuery = false ∧
    badPlanEmptyQuery ≠ fallbackPlan "topic" :=
  ⟨rfl, rfl, by simp [badPlanEmptyQuery, fallbackPlan]⟩

/-- Amended C2: `generate_plan` applies no semantic validation — any
successfully parsed plan is returned unchanged, whatever its shape;
only a parse failure triggers the fallback plan, and the fallback plan
itself satisfies the validity invariant whenever the topic is
non-empty. -/
theorem plan_validation_policy (q1 q2 : String) (p : Json)
    (tm1 tm2 : String → ModelOutcome)
    (h1 : tm1 (planning_prompt q1) = .output (some p))
    (h2 : tm2 (planning_prompt q2) = .output none)
    (hq : q2.isEmpty = false) :
    generate_plan q1 tm1 = .ok p ∧
    generate_plan q2 tm2 = .ok (fallbackPlan q2) ∧
    specValidPlan (fallbackPlan q2) = true := by
  refine ⟨?_, ?_, ?_⟩
  · unfold generate_plan; rw [h1]
  · unfold generate_plan; rw [h2]
  · have hr : specValidPlan (fallbackPlan q2) =
        (!q2.isEmpty && (!(q2 ++ " overview").isEmpty && true)) := rfl
    rw [hr, hq, isEmpty_append_overview]
    rfl

/-- Witness for the amended C2 at a parsed invalid plan and a parse
failure over the topic "solar power". -/
theorem plan_validation_policy_witness :
    generate_plan "topic" (fun _ => .output (some badPlanEmptyQuery)) =
      .ok badPlanEmptyQuery ∧
    generate_plan "solar power" modelParseFail = .ok (fallbackPlan "solar power") ∧
    specValidPlan (fallbackPlan "solar power") = true :=
  plan_validation_policy "topic" "solar power" badPlanEmptyQuery
    (fun _ => .output (some badPlanEmptyQuery)) modelParseFail rfl rfl rfl

/-! ### C3 -/

/-- Counterexample to C3: on a parse failure over topic "solar power"
the returned fallback plan has two sub-tasks, not one, and the second
sub-task's query is the topic followed by " overview", so the result is
not a plan with a single sub-task whose query equals the topic. -/
theorem fallback_plan_two_subtasks_cex :
    generate_plan "solar power" modelParseFail = .ok (fallbackPlan "solar power") ∧
    (subtasksOf (fallbackPlan "solar power")).length = 2 ∧
    (subtasksOf (fallbackPlan "solar power")).map searchQueryOf =
      [.str "solar power", .str "solar power overview"] :=
  ⟨rfl, rfl, rfl⟩

/-- Amended C3: if the raw model output fails to parse as JSON,
`generate_plan` returns exactly the fallback plan with TWO sub-tasks,
the first searching the topic itself and the second the topic followed
by " overview". -/
theorem fallback_plan_on_parse_failure (query : String) (tm : String → ModelOutcome)
    (h : tm (planning_prompt query) = .output none) :
    generate_plan query tm = .ok (fallbackPlan query) ∧
    (subtasksOf (fallbackPlan query)).length = 2 ∧
    (subtasksOf (fallbackPlan query)).map searchQueryOf =
      [.str query, .str (query ++ " overview")] := by
  refine ⟨?_, rfl, rfl⟩
  unfold generate_plan; rw [h]

/-- Witness for the amended C3 at the topic "wind energy". -/
theorem fallback_plan_on_parse_failure_witness :
    generate_plan "wind energy" modelParseFail = .ok (fallbackPlan "wind energy") ∧
    (subtasksOf (fallbackPlan "wind energy")).length = 2 ∧
    (subtasksOf (fallbackPlan "wind energy")).map searchQueryOf =
      [.str "wind energy", .str "wind energy overview"] :=
  fallback_plan_on_parse_failure "wind energy" modelParseFail rfl

/-! ### C6 -/

/-- Relayed report chunks are never terminal failure chunks. -/
theorem filter_failure_map_reportChunk (chunks : List String) :
    (chunks.map Event.reportChunk).filter isFailureChunk = [] := by
  induction chunks with
  | nil => rfl
  | cons c cs ih => simp [isFailureChunk, ih]

/-- A synthesis stream that dies with an exception outside
`GoogleAPIError` after one relayed chunk. -/
def rsOtherException : ReportStream := ⟨["partial text"], .otherException⟩

/-- Counterexample to C6: a synthesis failure outside `GoogleAPIError`
(for example the `ValueError` that `chunk.text` raises on blocked
content) truncates the stream with NO terminal failure chunk and the
exception escapes instead of being converted into a chunk. -/
theorem report_failure_chunk_cex :
    reportStage rsOtherException =
      ([.reportChunk "partial text"], some .reportException) ∧
    (reportStage rsOtherException).1.filter isFailureChunk = [] :=
  ⟨rfl, rfl⟩

/-- Amended C6: a quota failure truncates the stream and yields exactly
one terminal quota chunk; any other `GoogleAPIError` yields exactly one
terminal report-error chunk; both finish without raising and every
chunk already relayed stays delivered; a failure outside
`GoogleAPIError` keeps the relayed chunks but propagates with no
terminal chunk. -/
theorem report_failure_policy (rs1 rs2 rs3 : ReportStream) (m1 m2 : String)
    (h1 : rs1.ending = .resourceExhausted m1)
    (h2 : rs2.ending = .apiError m2)
    (h3 : rs3.ending = .otherException) :
    reportStage rs1 = (rs1.chunks.map .reportChunk ++ [.quotaExceeded m1], none) ∧
    (reportStage rs1).1.filter isFailureChunk = [.quotaExceeded m1] ∧
    reportStage rs2 = (rs2.chunks.map .reportChunk ++ [.reportError m2], none) ∧
    (reportStage rs2).1.filter isFailureChunk = [.reportError m2] ∧
    reportStage rs3 = (rs3.chunks.map .reportChunk, some .reportException) := by
  refine ⟨?_, ?_, ?_, ?_, ?_⟩ <;>
    simp [reportStage, h1, h2, h3, List.filter_append,
          filter_failure_map_reportChunk, isFailureChunk]

/-- Demo quota-failure and API-failure synthesis streams. -/
def rsQuota : ReportStream := ⟨["# Intro"], .resourceExhausted "429 quota"⟩

/-- Demo non-quota API-failure synthesis stream. -/
def rsApiErr : ReportStream := ⟨[], .apiError "500 internal"⟩

/-- Witness for the amended C6 at the three demo streams. -/
theorem report_failure_policy_witness :
    reportStage rsQuota = ([.reportChunk "# Intro", .quotaExceeded "429 quota"], none) ∧
    reportStage rsApiErr = ([.reportError "500 internal"], none) ∧
    reportStage rsOtherException = ([.reportChunk "partial text"], some .reportException) := by
  have h := report_failure_policy rsQuota rsApiErr rsOtherException
    "429 quota" "500 internal" rfl rfl rfl
  exact ⟨h.1, h.2.2.1, h.2.2.2.2⟩

/-! ### C7 -/

/-- A successful loop body implies both sub-task subscripts succeeded. -/
theorem processSubtask_ok_wf (tavilySearch : SearchOracle) (st : Json)
    (pr : Event × SubTaskOutcome)
    (hp : processSubtask tavilySearch st = .ok pr) : wfSubtask st = true := by
  unfold processSubtask at hp
  unfold wfSubtask
  cases h1 : indexStr st "search_query" with
  | error e => rw [h1] at hp; simp [Bind.bind, Except.bind] at hp
  | ok sq =>
    rw [h1] at hp
    simp only [Bind.bind, Except.bind] at hp
    cases h3 : tavilySearch sq 5 with
    | ok results =>
      rw [h3] at hp
      cases h2 : indexStr st "subtask" with
      | error e => rw [h2] at hp; simp at hp
      | ok d => rfl
    | error err =>
      rw [h3] at hp
      cases h2 : indexStr st "subtask" with
      | error e => rw [h2] at hp; simp at hp
      | ok d => rfl

/-- The value a successful loop body returns is exactly the claim-side
frame and outcome of that sub-task. -/
theorem processSubtask_ok_eq (tavilySearch : SearchOracle) (st : Json)
    (pr : Event × SubTaskOutcome)
    (hp : processSubtask tavilySearch st = .ok pr) :
    pr = (subtaskEvent tavilySearch st, subtaskOutcomeOf tavilySearch st) := by
  have hq := processSubtask_eq_of_wf tavilySearch st
    (processSubtask_ok_wf tavilySearch st pr hp)
  rw [hp] at hq
  injection hq

/-- Shape of the search loop output: its frames and outcomes are
exactly those of an in-order prefix of the sub-task list — the whole
list when no error escaped, a proper prefix when one did. -/
theorem searchLoop_shape (tavilySearch : SearchOracle) (sts : List Json) :
    ∃ k, k ≤ sts.length ∧
      (searchLoop tavilySearch sts).1 =
        (sts.take k).map (subtaskEvent tavilySearch) ∧
      (searchLoop tavilySearch sts).2.1 =
        (sts.take k).map (subtaskOutcomeOf tavilySearch) ∧
      ((searchLoop tavilySearch sts).2.2 = none → k = sts.length) ∧
      ((searchLoop tavilySearch sts).2.2 ≠ none → k < sts.length) := by
  induction sts with
  | nil =>
    exact ⟨0, Nat.le_refl 0, rfl, rfl, fun _ => rfl, fun h => absurd rfl h⟩
  | cons st rest ih =>
    cases hp : processSubtask tavilySearch st with
    | error e =>
      refine ⟨0, Nat.zero_le _, ?_, ?_, ?_, ?_⟩
      · simp [searchLoop, hp]
      · simp [searchLoop, hp]
      · intro hn; simp [searchLoop, hp] at hn
      · intro _; simp
    | ok pr =>
      have hpr := processSubtask_ok_eq tavilySearch st pr hp
      rcases hsl : searchLoop tavilySearch rest with ⟨evs, ocs, err⟩
      obtain ⟨k, hk, hev, hoc, hnone, hsome⟩ := ih
      rw [hsl] at hev hoc hnone hsome
      dsimp only at hev hoc hnone hsome
      refine ⟨k + 1, Nat.succ_le_succ hk, ?_, ?_, ?_, ?_⟩
      · simp [searchLoop, hp, hsl, hpr, hev]
      · simp [searchLoop, hp, hsl, hpr, hoc]
      · intro hn
        simp [searchLoop, hp, hsl] at hn
        rw [hnone hn]
        simp
      · intro hn
        simp [searchLoop, hp, hsl] at hn
        have := hsome hn
        simp
        omega

/-- The terminal failure frame (if any) the report stage appends after
the relayed chunks, per stream ending. -/
def terminalFrames : ReportEnd → List Event
  | .completed => []
  | .resourceExhausted msg => [.quotaExceeded msg]
  | .apiError msg => [.reportError msg]
  | .otherException => []

/-- The report stage's frames are exactly the chunks in generation
order followed by the terminal frames of its ending. -/
theorem reportStage_events_eq (rs : ReportStream) :
    (reportStage rs).1 = rs.chunks.map .reportChunk ++ terminalFrames rs.ending := by
  rcases rs with ⟨chunks, ending⟩
  cases ending <;> simp [reportStage, terminalFrames]

/-- A sub-task's frame is always a Searching-stage frame. -/
theorem subtaskEvent_stage (tavilySearch : SearchOracle) (st : Json) :
    stageOf (subtaskEvent tavilySearch st) = 1 := by
  unfold subtaskEvent
  cases tavilySearch (searchQueryOf st) 5 <;> rfl

/-- Terminal failure frames are Synthesizing-stage frames. -/
theorem terminalFrames_stage (ending : ReportEnd) :
    ∀ ev ∈ terminalFrames ending, stageOf ev = 2 := by
  cases ending <;> intro ev hev <;> simp [terminalFrames] at hev <;>
    rw [hev] <;> rfl

/-- Event list of a run whose planning raised an API error. -/
theorem stream_research_events_plan_error (query provider tmn tkn sp msg : String)
    (thinkingModel : String → ModelOutcome) (tavilySearch : SearchOracle)
    (taskModel : String → ReportStream)
    (hg : generate_plan query thinkingModel = .error msg) :
    (stream_research query provider tmn tkn sp
      thinkingModel tavilySearch taskModel).events = [] := by
  unfold stream_research
  rw [hg]

/-- Event list of a run whose `plan["subtasks"]` subscript or its
iteration raised. -/
theorem stream_research_events_bind_error (query provider tmn tkn sp : String)
    (thinkingModel : String → ModelOutcome) (tavilySearch : SearchOracle)
    (taskModel : String → ReportStream) (plan : Json) (e : PyErr)
    (hg : generate_plan query thinkingModel = .ok plan)
    (hb : (indexStr plan "subtasks").bind iterJson = .error e) :
    (stream_research query provider tmn tkn sp
      thinkingModel tavilySearch taskModel).events = [.planning plan] := by
  unfold stream_research
  rw [hg]
  dsimp only
  rw [hb]

/-- Event list of a run that reached the Searching stage: the Planning
frame, then the loop's frames, then — only when the loop completed —
the report stage's frames. -/
theorem stream_research_events_structure (query provider tmn tkn sp : String)
    (thinkingModel : String → ModelOutcome) (tavilySearch : SearchOracle)
    (taskModel : String → ReportStream) (plan : Json) (sts : List Json)
    (hg : generate_plan query thinkingModel = .ok plan)
    (hb : (indexStr plan "subtasks").bind iterJson = .ok sts) :
    (stream_research query provider tmn tkn sp
      thinkingModel tavilySearch taskModel).events =
      .planning plan :: ((searchLoop tavilySearch sts).1 ++
        (match (searchLoop tavilySearch sts).2.2 with
         | some _ => []
         | none => (reportStage (taskModel (report_prompt query plan
             (search_summary (searchLoop tavilySearch sts).2.1)))).1)) := by
  unfold stream_research
  rw [hg]
  dsimp only
  rw [hb]
  dsimp only
  rcases hsl : searchLoop tavilySearch sts with ⟨evs, ocs, err⟩
  cases err with
  | some e => simp
  | none => dsimp only

/-- Full arrangement of a run's event list: no frame at all when
planning raised; only the Planning frame when the `subtasks` access
raised; otherwise the Planning frame, then the frames of an in-order
prefix of the sub-tasks (proper prefix exactly when the loop crashed),
then — when the loop completed — the report chunks in generation order
plus at most one terminal failure frame. -/
theorem stream_research_event_arrangement (query provider tmn tkn sp : String)
    (thinkingModel : String → ModelOutcome) (tavilySearch : SearchOracle)
    (taskModel : String → ReportStream) :
    (∃ msg, generate_plan query thinkingModel = .error msg ∧
       (stream_research query provider tmn tkn sp
         thinkingModel tavilySearch taskModel).events = []) ∨
    (∃ plan e, generate_plan query thinkingModel = .ok plan ∧
       (indexStr plan "subtasks").bind iterJson = .error e ∧
       (stream_research query provider tmn tkn sp
         thinkingModel tavilySearch taskModel).events = [.planning plan]) ∨
    (∃ plan sts k, generate_plan query thinkingModel = .ok plan ∧
       (indexStr plan "subtasks").bind iterJson = .ok sts ∧
       k ≤ sts.length ∧
       ((k < sts.length ∧
          (stream_research query provider tmn tkn sp
            thinkingModel tavilySearch taskModel).events =
            .planning plan :: (sts.take k).map (subtaskEvent tavilySearch)) ∨
        (k = sts.length ∧
          (stream_research query provider tmn tkn sp
            thinkingModel tavilySearch taskModel).events =
            .planning plan ::
              (sts.map (subtaskEvent tavilySearch) ++
               ((taskModel (report_prompt query plan (search_summary
                   (sts.map (subtaskOutcomeOf tavilySearch))))).chunks.map .reportChunk ++
                terminalFrames (taskModel (report_prompt query plan (search_summary
                   (sts.map (subtaskOutcomeOf tavilySearch))))).ending))))) := by
  cases hg : generate_plan query thinkingModel with
  | error msg =>
    exact Or.inl ⟨msg, rfl, stream_research_events_plan_error query provider tmn tkn sp
      msg thinkingModel tavilySearch taskModel hg⟩
  | ok plan =>
    cases hb : (indexStr plan "subtasks").bind iterJson with
    | error e =>
      exact Or.inr (Or.inl ⟨plan, e, rfl, hb,
        stream_research_events_bind_error query provider tmn tkn sp
          thinkingModel tavilySearch taskModel plan e hg hb⟩)
    | ok sts =>
      obtain ⟨k, hk, hev, hoc, hnone, hsome⟩ := searchLoop_shape tavilySearch sts
      have hstruct := stream_research_events_structure query provider tmn tkn sp
        thinkingModel tavilySearch taskModel plan sts hg hb
      refine Or.inr (Or.inr ⟨plan, sts, k, rfl, hb, hk, ?_⟩)
      cases herr : (searchLoop tavilySearch sts).2.2 with
      | some e =>
        have hklt : k < sts.length := hsome (by rw [herr]; simp)
        refine Or.inl ⟨hklt, ?_⟩
        rw [hstruct, herr, hev]
        simp
      | none =>
        have hkeq : k = sts.length := hnone herr
        subst hkeq
        refine Or.inr ⟨rfl, ?_⟩
        rw [hstruct, herr, hev, hoc, List.take_length, reportStage_events_eq]

/-- Claim C7: every run's event sequence is exactly the claimed
arrangement — the single Planning frame first (when planning fails no
frame is emitted at all; no frame after the head is a Planning frame),
followed by the search-outcome frames of an in-order prefix of the
sub-tasks (the whole sequence unless the loop crashed), followed — when
the Searching stage completed — by all report chunks in generation
order plus at most one terminal failure frame; consequently the frame
sequence is stage-monotone, so no later-stage frame ever precedes or
interleaves with an earlier-stage frame. -/
theorem pipeline_stage_order (query provider tmn tkn sp : String)
    (thinkingModel : String → ModelOutcome) (tavilySearch : SearchOracle)
    (taskModel : String → ReportStream) :
    ((∃ msg, generate_plan query thinkingModel = .error msg ∧
        (stream_research query provider tmn tkn sp
          thinkingModel tavilySearch taskModel).events = []) ∨
     (∃ plan e, generate_plan query thinkingModel = .ok plan ∧
        (indexStr plan "subtasks").bind iterJson = .error e ∧
        (stream_research query provider tmn tkn sp
          thinkingModel tavilySearch taskModel).events = [.planning plan]) ∨
     (∃ plan sts k, generate_plan query thinkingModel = .ok plan ∧
        (indexStr plan "subtasks").bind iterJson = .ok sts ∧
        k ≤ sts.length ∧
        ((k < sts.length ∧
           (stream_research query provider tmn tkn sp
             thinkingModel tavilySearch taskModel).events =
             .planning plan :: (sts.take k).map (subtaskEvent tavilySearch)) ∨
         (k = sts.length ∧
           (stream_research query provider tmn tkn sp
             thinkingModel tavilySearch taskModel).events =
             .planning plan ::
               (sts.map (subtaskEvent tavilySearch) ++
                ((taskModel (report_prompt query plan (search_summary
                    (sts.map (subtaskOutcomeOf tavilySearch))))).chunks.map .reportChunk ++
                 terminalFrames (taskModel (report_prompt query plan (search_summary
                    (sts.map (subtaskOutcomeOf tavilySearch))))).ending)))))) ∧
    (∀ ev ∈ (stream_research query provider tmn tkn sp
        thinkingModel tavilySearch taskModel).events.tail, stageOf ev ≠ 0) ∧
    List.Pairwise (fun a b => stageOf a ≤ stageOf b)
      (stream_research query provider tmn tkn sp
        thinkingModel tavilySearch taskModel).events := by
  have h := stream_research_event_arrangement query provider tmn tkn sp
    thinkingModel tavilySearch taskModel
  have hs2 : ∀ rs : ReportStream,
      ∀ x ∈ rs.chunks.map Event.reportChunk ++ terminalFrames rs.ending,
        stageOf x = 2 := by
    intro rs x hx
    rcases List.mem_append.mp hx with h3 | h4
    · obtain ⟨c, -, rfl⟩ := List.mem_map.mp h3
      rfl
    · exact terminalFrames_stage rs.ending x h4
  refine ⟨h, ?_, ?_⟩
  · rcases h with ⟨msg, -, hev⟩ | ⟨plan, e, -, -, hev⟩ |
      ⟨plan, sts, k, -, -, -, ⟨-, hev⟩ | ⟨-, hev⟩⟩
    · rw [hev]; intro ev hmem; simp at hmem
    · rw [hev]; intro ev hmem; simp at hmem
    · rw [hev]
      intro ev hmem
      simp only [List.tail_cons] at hmem
      obtain ⟨st, -, rfl⟩ := List.mem_map.mp hmem
      rw [subtaskEvent_stage]
      simp
    · rw [hev]
      intro ev hmem
      simp only [List.tail_cons] at hmem
      rcases List.mem_append.mp hmem with h1 | h2
      · obtain ⟨st, -, rfl⟩ := List.mem_map.mp h1
        rw [subtaskEvent_stage]
        simp
      · rw [hs2 _ ev h2]
        simp
  · rcases h with ⟨msg, -, hev⟩ | ⟨plan, e, -, -, hev⟩ |
      ⟨plan, sts, k, -, -, -, ⟨-, hev⟩ | ⟨-, hev⟩⟩
    · rw [hev]; exact List.Pairwise.nil
    · rw [hev]; simp
    · rw [hev]
      refine List.Pairwise.cons (fun b _ => Nat.zero_le _) ?_
      refine pairwise_stage_of_const _ 1 ?_
      intro x hx
      obtain ⟨st, -, rfl⟩ := List.mem_map.mp hx
      exact subtaskEvent_stage tavilySearch st
    · rw [hev]
      have hs1 : ∀ x ∈ sts.map (subtaskEvent tavilySearch), stageOf x = 1 := by
        intro x hx
        obtain ⟨st, -, rfl⟩ := List.mem_map.mp hx
        exact subtaskEvent_stage tavilySearch st
      refine List.Pairwise.cons (fun b _ => Nat.zero_le _) ?_
      rw [List.pairwise_append]
      exact ⟨pairwise_stage_of_const _ 1 hs1, pairwise_stage_of_const _ 2 (hs2 _),
        fun a ha b hb => by rw [hs1 a ha, hs2 _ b hb]; exact Nat.le_succ 1⟩

/-! ### C8 -/

/-- The result line as the claim words it: `- title: content [URL: url]`,
with the literal sentinel `Not Available` substituted when the result
has no URL. -/
def specResultLine (r : SearchResult) : String :=
  "- " ++ r.title ++ ": " ++ r.content ++ " [URL: " ++
    (match r.url with
     | some u => u
     | none => "Not Available") ++ "]"

/-- One line per search result, in order, separated by newlines, as the
claim words it. -/
def specResultLines : List SearchResult → String
  | [] => ""
  | r :: rest =>
    specResultLine r ++ (if rest.isEmpty then "" else "\n") ++ specResultLines rest

/-- The per-sub-task block as the claim words it: the SubTask
description and search query, followed by either the result lines (when
the outcome has results) or the literal line `No results found.`. -/
def specOutcomeBlock (item : SubTaskOutcome) : String :=
  "Subtask: " ++ pyStr item.subtask ++ "\nSearch Query: " ++
    pyStr item.search_query ++ "\nResults:\n" ++
  (if item.results.isEmpty then "No results found."
   else specResultLines item.results)

/-- The whole narrative as the claim words it: the per-outcome blocks
concatenated in order, separated by newlines. -/
def specNarrative : List SubTaskOutcome → String
  | [] => ""
  | item :: rest =>
    specOutcomeBlock item ++ (if rest.isEmpty then "" else "\n") ++
      specNarrative rest

/-- The source's result line and the claim's agree. -/
theorem formatResultLine_eq (r : SearchResult) :
    formatResultLine r = specResultLine r := by
  rcases r with ⟨t, c, u⟩
  cases u <;> rfl

/-- The source's joined result lines and the claim's agree. -/
theorem resultLines_eq (results : List SearchResult) :
    pyJoin "\n" (results.map formatResultLine) = specResultLines results := by
  induction results with
  | nil => rfl
  | cons r rest ih =>
    cases rest with
    | nil => simp [pyJoin, specResultLines, formatResultLine_eq]
    | cons r2 rest2 =>
      simp only [List.map_cons] at ih ⊢
      simp only [pyJoin]
      rw [ih, formatResultLine_eq]
      simp [specResultLines]

/-- The source's per-outcome block and the claim's agree. -/
theorem outcomeBlock_eq (item : SubTaskOutcome) :
    ("Subtask: " ++ pyStr item.subtask ++ "\nSearch Query: " ++
      pyStr item.search_query ++ "\nResults:\n" ++
     (if item.results.isEmpty then "No results found."
      else pyJoin "\n" (item.results.map formatResultLine))) =
    specOutcomeBlock item := by
  unfold specOutcomeBlock
  rw [resultLines_eq]

/-- Claim C8: the synthesis prompt's per-sub-task narrative
(`search_summary`) is exactly the claim's narrative — for each outcome
in order, the SubTask description and search query followed by one
`- title: content [URL: url-or-Not-Available]` line per result when
results exist, or the literal `No results found.` line when the
outcome's result list is empty. -/
theorem search_summary_matches_spec (outcomes : List SubTaskOutcome) :
    search_summary outcomes = specNarrative outcomes := by
  unfold search_summary
  induction outcomes with
  | nil => rfl
  | cons item rest ih =>
    cases rest with
    | nil =>
      simp only [List.map_cons, List.map_nil]
      rw [outcomeBlock_eq]
      simp [pyJoin, specNarrative, String.append_empty]
    | cons item2 rest2 =>
      simp only [List.map_cons] at ih ⊢
      simp only [pyJoin]
      rw [ih, outcomeBlock_eq]
      simp [specNarrative]

/-! ### C9 -/

/-- A parsed plan whose `subtasks` value is an empty dict — not an
object with a `subtasks` list, yet Python iterates it zero times. -/
def planEmptyDictSubtasks : Json := .obj [("subtasks", .obj [])]

/-- A planning model returning the empty-dict-subtasks plan. -/
def modelEmptyDict : String → ModelOutcome := fun _ =>
  .output (some planEmptyDictSubtasks)

/-- A search backend that always raises (never reached here). -/
def searchNever : SearchOracle := fun _ _ => .error "unreachable"

/-- A synthesis model that completes at once with no chunks. -/
def reportEmpty : String → ReportStream := fun _ => ⟨[], .completed⟩

/-- Counterexample to C9: the plan `{"subtasks": {}}` is not an object
with a `subtasks` list, yet the run raises no lookup error at all — the
empty dict iterates zero times, the Searching stage emits nothing, and
the run completes normally. -/
theorem unvalidated_plan_shape_cex :
    stream_research "t" "google" "gemini-1.5-flash" "gemini-1.5-flash" "tavily"
        modelEmptyDict searchNever reportEmpty =
      ⟨[.planning planEmptyDictSubtasks], .done⟩ := rfl

/-- The report stage can only fail with a non-Python exception. -/
theorem reportStage_err_cases (rs : ReportStream) :
    (reportStage rs).2 = none ∨ (reportStage rs).2 = some .reportException := by
  rcases rs with ⟨chunks, ending⟩
  cases ending <;> simp [reportStage]

/-- Once planning succeeded with plan `p`, the rest of the run is the
subscript-iterate-search-report pipeline over `p`. -/
theorem stream_research_planning_ok (q pr tmn tkn sp : String)
    (tm : String → ModelOutcome) (tv : SearchOracle)
    (rm : String → ReportStream) (p : Json)
    (h : tm (planning_prompt q) = .output (some p)) :
    stream_research q pr tmn tkn sp tm tv rm =
      match (indexStr p "subtasks").bind iterJson with
      | .error e => ⟨[.planning p], .crashed (.py e)⟩
      | .ok subtasks =>
        match searchLoop tv subtasks with
        | (evs, _, some e) => ⟨.planning p :: evs, .crashed (.py e)⟩
        | (evs, ocs, none) =>
          let rs := rm (report_prompt q p (search_summary ocs))
          match reportStage rs with
          | (revs, rerr) =>
            ⟨.planning p :: (evs ++ revs),
             match rerr with
             | some err => .crashed err
             | none => .done⟩ := by
  unfold stream_research generate_plan
  rw [h]

/-- Amended C9: after a successful parse no shape validation occurs.
If the `subtasks` subscript or its iteration raises, the run crashes
with that Python error right after the Planning frame; if iteration
succeeds but some sub-task entry makes a field subscript raise, the run
crashes with that error during Searching, keeping the Planning frame
and the frames of the sub-tasks already processed; but a `subtasks`
value that iterates to nothing (e.g. an empty dict) slips through
without any error; and under the ResearchPlan shape precondition the
unguarded subscripts never fail — the run never crashes with a Python
error. -/
theorem unvalidated_plan_lookup_errors (q pr tmn tkn sp : String)
    (tavilySearch : SearchOracle) (taskModel : String → ReportStream)
    (tm1 tm2 tm3 : String → ModelOutcome) (p1 p2 p3 : Json)
    (e1 e2 : PyErr) (pre : List Json) (x : Json) (rest : List Json)
    (h1 : tm1 (planning_prompt q) = .output (some p1))
    (hb1 : (indexStr p1 "subtasks").bind iterJson = .error e1)
    (h2 : tm2 (planning_prompt q) = .output (some p2))
    (hb2 : (indexStr p2 "subtasks").bind iterJson = .ok (pre ++ x :: rest))
    (hpre : ∀ st ∈ pre, wfSubtask st = true)
    (hx : processSubtask tavilySearch x = .error e2)
    (h3 : tm3 (planning_prompt q) = .output (some p3))
    (hshape : planShape p3 = true) :
    stream_research q pr tmn tkn sp tm1 tavilySearch taskModel =
      ⟨[.planning p1], .crashed (.py e1)⟩ ∧
    stream_research q pr tmn tkn sp tm2 tavilySearch taskModel =
      ⟨.planning p2 :: pre.map (subtaskEvent tavilySearch), .crashed (.py e2)⟩ ∧
    ∀ e : PyErr,
      (stream_research q pr tmn tkn sp tm3 tavilySearch taskModel).status ≠
        .crashed (.py e) := by
  refine ⟨?_, ?_, ?_⟩
  · rw [stream_research_planning_ok q pr tmn tkn sp tm1 tavilySearch taskModel p1 h1,
        hb1]
  · rw [stream_research_planning_ok q pr tmn tkn sp tm2 tavilySearch taskModel p2 h2,
        hb2]
    dsimp only
    rw [searchLoop_abort_on_error tavilySearch pre x rest e2 hpre hx]
  · intro e
    rw [stream_research_planning_ok q pr tmn tkn sp tm3 tavilySearch taskModel p3 h3]
    unfold planShape at hshape
    cases hix : indexStr p3 "subtasks" with
    | error e' => rw [hix] at hshape; simp at hshape
    | ok sv =>
      rw [hix] at hshape
      cases sv with
      | null => simp at hshape
      | bool b => simp at hshape
      | num n => simp at hshape
      | str s => simp at hshape
      | obj fields => simp at hshape
      | arr sts =>
        have hwf : ∀ st ∈ sts, wfSubtask st = true := by
          simp only [List.all_eq_true] at hshape
          exact hshape
        dsimp only [Except.bind, iterJson]
        rw [searchLoop_eq_of_wf tavilySearch sts hwf]
        dsimp only
        rcases hrp : reportStage (taskModel (report_prompt q p3
            (search_summary (sts.map (subtaskOutcomeOf tavilySearch))))) with ⟨revs, rerr⟩
        have herr := reportStage_err_cases (taskModel (report_prompt q p3
            (search_summary (sts.map (subtaskOutcomeOf tavilySearch)))))
        rw [hrp] at herr
        dsimp only at herr ⊢
        rcases herr with hnone | hre
        · rw [hnone]
          simp
        · rw [hre]
          simp

/-- A parsed plan with no `subtasks` key at all. -/
def planNoSubtasks : Json := .obj []

/-- A sub-task entry missing its `search_query` field. -/
def stMissingQuery : Json := .obj [("subtask", .str "orphan")]

/-- A parsed plan whose second sub-task entry lacks `search_query`. -/
def planBadElement : Json := .obj [("subtasks", .arr [subtaskA, stMissingQuery])]

/-- A parsed plan of full ResearchPlan shape. -/
def planGood : Json := .obj [("subtasks", .arr [subtaskA, subtaskB])]

/-- Planning model returning the keyless plan. -/
def modelNoSubtasks : String → ModelOutcome := fun _ => .output (some planNoSubtasks)

/-- Planning model returning the plan with a bad element. -/
def modelBadElement : String → ModelOutcome := fun _ => .output (some planBadElement)

/-- Planning model returning the well-shaped plan. -/
def modelGood : String → ModelOutcome := fun _ => .output (some planGood)

/-- Witness for the amended C9 at three concrete parsed plans: one with
no `subtasks` key, one whose second entry lacks `search_query`, one of
full shape. -/
theorem unvalidated_plan_lookup_errors_witness :
    stream_research "q" "google" "m" "m" "tavily"
        modelNoSubtasks tavilyDemo reportEmpty =
      ⟨[.planning planNoSubtasks], .crashed (.py (.keyError "subtasks"))⟩ ∧
    stream_research "q" "google" "m" "m" "tavily"
        modelBadElement tavilyDemo reportEmpty =
      ⟨.planning planBadElement :: [subtaskA].map (subtaskEvent tavilyDemo),
       .crashed (.py (.keyError "search_query"))⟩ ∧
    (stream_research "q" "google" "m" "m" "tavily"
        modelGood tavilyDemo reportEmpty).status ≠
      .crashed (.py (.keyError "search_query")) := by
  have h := unvalidated_plan_lookup_errors "q" "google" "m" "m" "tavily"
    tavilyDemo reportEmpty modelNoSubtasks modelBadElement modelGood
    planNoSubtasks planBadElement planGood
    (.keyError "subtasks") (.keyError "search_query")
    [subtaskA] stMissingQuery []
    rfl rfl rfl rfl (by decide) rfl rfl (by decide)
  exact ⟨h.1, h.2.1, h.2.2 (.keyError "search_query")⟩

end DeepResearch
